import Mathlib

/-
Verification of the LeetCode Discord bot (src/discord_lc_bot.py).

The Python module is shallowly embedded: JSON values are an inductive type,
Python exceptions are an explicit error type threaded through `Except`, and
the two network calls (the recent-submissions query and the per-slug
difficulty query) are oracles passed as arguments — `none` stands for a
response whose body `response.json()` cannot decode.  Calendar dates are
modelled as day ordinals (`Int`); `datetime.now(tz).date()` becomes the
parameter `today` and the conversion
`datetime.fromtimestamp(int(ts), tz=pytz.UTC).astimezone(tz).date()` becomes
the parameter `localDate : Int → Int`.  `timedelta(days = k)` subtraction on
dates is then subtraction of `k` on ordinals, and `date.isoformat()` is
injective on dates, so comparisons and equalities of dates are preserved
exactly.  JSON numbers are modelled as integers (the fields the program
reads are integral timestamps).
-/

namespace LCBot

/-- A JSON value, as produced by `response.json()`.  Python `None` is
`Json.null`; objects keep their key insertion order, as Python dicts do. -/
inductive Json where
  | null : Json
  | bool (b : Bool) : Json
  | str (s : String) : Json
  | num (n : Int) : Json
  | arr (xs : List Json) : Json
  | obj (kvs : List (String × Json)) : Json

mutual
/-- Decidable equality of JSON values. -/
def Json.deq : (a b : Json) → Decidable (a = b)
  | .null, .null => .isTrue rfl
  | .null, .bool _ => .isFalse (fun h => Json.noConfusion h)
  | .null, .str _ => .isFalse (fun h => Json.noConfusion h)
  | .null, .num _ => .isFalse (fun h => Json.noConfusion h)
  | .null, .arr _ => .isFalse (fun h => Json.noConfusion h)
  | .null, .obj _ => .isFalse (fun h => Json.noConfusion h)
  | .bool _, .null => .isFalse (fun h => Json.noConfusion h)
  | .bool a, .bool b =>
      if h : a = b then .isTrue (by rw [h])
      else .isFalse (by intro hc; injection hc; exact h (by assumption))
  | .bool _, .str _ => .isFalse (fun h => Json.noConfusion h)
  | .bool _, .num _ => .isFalse (fun h => Json.noConfusion h)
  | .bool _, .arr _ => .isFalse (fun h => Json.noConfusion h)
  | .bool _, .obj _ => .isFalse (fun h => Json.noConfusion h)
  | .str _, .null => .isFalse (fun h => Json.noConfusion h)
  | .str _, .bool _ => .isFalse (fun h => Json.noConfusion h)
  | .str a, .str b =>
      if h : a = b then .isTrue (by rw [h])
      else .isFalse (by intro hc; injection hc; exact h (by assumption))
  | .str _, .num _ => .isFalse (fun h => Json.noConfusion h)
  | .str _, .arr _ => .isFalse (fun h => Json.noConfusion h)
  | .str _, .obj _ => .isFalse (fun h => Json.noConfusion h)
  | .num _, .null => .isFalse (fun h => Json.noConfusion h)
  | .num _, .bool _ => .isFalse (fun h => Json.noConfusion h)
  | .num _, .str _ => .isFalse (fun h => Json.noConfusion h)
  | .num a, .num b =>
      if h : a = b then .isTrue (by rw [h])
      else .isFalse (by intro hc; injection hc; exact h (by assumption))
  | .num _, .arr _ => .isFalse (fun h => Json.noConfusion h)
  | .num _, .obj _ => .isFalse (fun h => Json.noConfusion h)
  | .arr _, .null => .isFalse (fun h => Json.noConfusion h)
  | .arr _, .bool _ => .isFalse (fun h => Json.noConfusion h)
  | .arr _, .str _ => .isFalse (fun h => Json.noConfusion h)
  | .arr _, .num _ => .isFalse (fun h => Json.noConfusion h)
  | .arr xs, .arr ys =>
      match Json.deqList xs ys with
      | .isTrue h => .isTrue (by rw [h])
      | .isFalse h => .isFalse (by intro hc; injection hc; exact h (by assumption))
  | .arr _, .obj _ => .isFalse (fun h => Json.noConfusion h)
  | .obj _, .null => .isFalse (fun h => Json.noConfusion h)
  | .obj _, .bool _ => .isFalse (fun h => Json.noConfusion h)
  | .obj _, .str _ => .isFalse (fun h => Json.noConfusion h)
  | .obj _, .num _ => .isFalse (fun h => Json.noConfusion h)
  | .obj _, .arr _ => .isFalse (fun h => Json.noConfusion h)
  | .obj xs, .obj ys =>
      match Json.deqKVList xs ys with
      | .isTrue h => .isTrue (by rw [h])
      | .isFalse h => .isFalse (by intro hc; injection hc; exact h (by assumption))

/-- Decidable equality of JSON value lists. -/
def Json.deqList : (xs ys : List Json) → Decidable (xs = ys)
  | [], [] => .isTrue rfl
  | [], _ :: _ => .isFalse (fun h => List.noConfusion h)
  | _ :: _, [] => .isFalse (fun h => List.noConfusion h)
  | x :: xs, y :: ys =>
      match Json.deq x y with
      | .isFalse h =>
          .isFalse (by intro hc; injection hc; exact h (by assumption))
      | .isTrue h1 =>
          match Json.deqList xs ys with
          | .isTrue h2 => .isTrue (by rw [h1, h2])
          | .isFalse h2 =>
              .isFalse (by intro hc; injection hc; exact h2 (by assumption))

/-- Decidable equality of JSON key-value lists. -/
def Json.deqKVList : (xs ys : List (String × Json)) → Decidable (xs = ys)
  | [], [] => .isTrue rfl
  | [], _ :: _ => .isFalse (fun h => List.noConfusion h)
  | _ :: _, [] => .isFalse (fun h => List.noConfusion h)
  | (k, v) :: xs, (k', v') :: ys =>
      if hk : k = k' then
        match Json.deq v v' with
        | .isFalse h =>
            .isFalse (by
              intro hc
              injection hc with hp hrest
              exact h (congrArg Prod.snd hp))
        | .isTrue h1 =>
            match Json.deqKVList xs ys with
            | .isTrue h2 => .isTrue (by rw [hk, h1, h2])
            | .isFalse h2 =>
                .isFalse (by intro hc; injection hc; exact h2 (by assumption))
      else
        .isFalse (by
          intro hc
          injection hc with hp hrest
          exact hk (congrArg Prod.fst hp))
end

instance : DecidableEq Json := Json.deq

instance {ε α : Type} [DecidableEq ε] [DecidableEq α] :
    DecidableEq (Except ε α) := fun a b =>
  match a, b with
  | .ok x, .ok y =>
      if h : x = y then .isTrue (by rw [h])
      else .isFalse (by intro hc; injection hc; exact h (by assumption))
  | .ok _, .error _ => .isFalse (fun h => Except.noConfusion h)
  | .error _, .ok _ => .isFalse (fun h => Except.noConfusion h)
  | .error x, .error y =>
      if h : x = y then .isTrue (by rw [h])
      else .isFalse (by intro hc; injection hc; exact h (by assumption))

/-- The Python exceptions the embedded code can raise. -/
inductive PyErr where
  | jsonDecodeError : PyErr
  | keyError : PyErr
  | typeError : PyErr
  | valueError : PyErr
deriving DecidableEq

/-- A Python dict with string keys, in insertion order. -/
abbrev PyDict (α : Type) := List (String × α)

/-- `d[k]` read on a dict: first binding wins (keys are unique in practice). -/
def dictGet {α : Type} : PyDict α → String → Option α
  | [], _ => none
  | (k', v) :: rest, k => if k' = k then some v else dictGet rest k

/-- `d[k] = v` on a dict: replace in place if present, else append (Python
dicts preserve insertion order on update). -/
def dictSet {α : Type} : PyDict α → String → α → PyDict α
  | [], k, v => [(k, v)]
  | (k', v') :: rest, k, v =>
      if k' = k then (k, v) :: rest else (k', v') :: dictSet rest k v

/-- In-place mutation of the value under key `k` (e.g. `d[k].append(x)`).
In the embedded code the key is always present. -/
def dictUpdate {α : Type} : PyDict α → String → (α → α) → PyDict α
  | [], _, _ => []
  | (k', v) :: rest, k, f =>
      if k' = k then (k', f v) :: rest else (k', v) :: dictUpdate rest k f

/-- Key membership test of `k in d` on a Python dict. -/
def hasKey (kvs : List (String × Json)) (k : String) : Bool :=
  kvs.any (fun p => p.1 == k)

/-- Word-prefix test on character lists (for Python `sub in str`). -/
def leadMatch : List Char → List Char → Bool
  | [], _ => true
  | _ :: _, [] => false
  | a :: as, b :: bs => a == b && leadMatch as bs

/-- Substring occurrence test on character lists. -/
def hasSub (sub : List Char) : List Char → Bool
  | [] => leadMatch sub []
  | c :: rest => leadMatch sub (c :: rest) || hasSub sub rest

/-- Python `k in data` where `k` is a string: key test on dicts, membership
on lists, substring on strings, `TypeError` on non-iterables. -/
def pyContains (k : String) : Json → Except PyErr Bool
  | .obj kvs => .ok (hasKey kvs k)
  | .arr xs => .ok (xs.any (fun x => x == Json.str k))
  | .str s => .ok (hasSub k.data s.data)
  | _ => .error .typeError

/-- Python subscription `j[k]` with a string key: `KeyError` when the key is
absent from a dict, `TypeError` on any non-dict value. -/
def Json.index (j : Json) (k : String) : Except PyErr Json :=
  match j with
  | .obj kvs =>
      match dictGet kvs k with
      | some v => .ok v
      | none => .error .keyError
  | _ => .error .typeError

/-- Python iteration `for x in j`: lists yield elements, dicts yield keys,
strings yield one-character strings, anything else raises `TypeError`. -/
def pyIter : Json → Except PyErr (List Json)
  | .arr xs => .ok xs
  | .obj kvs => .ok (kvs.map (fun p => Json.str p.1))
  | .str s => .ok (s.data.map (fun c => Json.str (String.mk [c])))
  | _ => .error .typeError

/-- Python `int(x)`: identity on integers, `True`/`False` to 1/0, string
parse (whitespace-tolerant) with `ValueError` on failure, `TypeError`
otherwise. -/
def pyInt : Json → Except PyErr Int
  | .num n => .ok n
  | .bool b => .ok (if b then 1 else 0)
  | .str s =>
      match s.trim.toInt? with
      | some n => .ok n
      | none => .error .valueError
  | _ => .error .typeError

/-- Python truthiness of a JSON value (used by `if not difficulty:`). -/
def Json.truthy : Json → Bool
  | .null => false
  | .bool b => b
  | .str s => !s.isEmpty
  | .num n => n != 0
  | .arr xs => !xs.isEmpty
  | .obj kvs => !kvs.isEmpty

mutual
/-- Python `repr` of a JSON value (brace and quote characters escaped). -/
def Json.pyrepr : Json → String
  | .null => "None"
  | .bool b => if b then "True" else "False"
  | .str s => "\x27" ++ s ++ "\x27"
  | .num n => toString n
  | .arr xs => "[" ++ String.intercalate ", " (pyreprList xs) ++ "]"
  | .obj kvs => "\x7b" ++ String.intercalate ", " (pyreprKVList kvs) ++ "\x7d"

def pyreprList : List Json → List String
  | [] => []
  | x :: xs => Json.pyrepr x :: pyreprList xs

def pyreprKVList : List (String × Json) → List String
  | [] => []
  | (k, v) :: kvs => ("\x27" ++ k ++ "\x27: " ++ Json.pyrepr v) :: pyreprKVList kvs
end

/-- Python `str` of a JSON value, as used inside f-strings. -/
def Json.pystr : Json → String
  | .str s => s
  | j => j.pyrepr

/-- Python `str.upper()`: every character upper-cased. -/
def pyUpper (s : String) : String :=
  String.mk (s.data.map Char.toUpper)

/-- Python `str.capitalize()`: first character upper-cased, rest lower-cased. -/
def pyCapitalize (s : String) : String :=
  match s.data with
  | [] => ""
  | c :: rest => String.mk (c.toUpper :: rest.map Char.toLower)

/-- `get_problem_difficulty(title_slug)` (src/discord_lc_bot.py lines
60-80).  `resp` is the oracle's raw response for this slug (`none` when the
body is undecodable JSON, in which case `response.json()` raises).  The
function returns `data['data']['question']['difficulty']` unless the decoded
body carries an `errors` member, in which case it returns `None`; note there
is no `try`/`except` here, so decode and structure failures propagate. -/
def get_problem_difficulty (resp : Option Json) : Except PyErr Json :=
  match resp with
  | none => .error .jsonDecodeError
  | some data =>
      match pyContains "errors" data with
      | .error e => .error e
      | .ok true => .ok .null
      | .ok false =>
          match data.index "data" with
          | .error e => .error e
          | .ok d =>
              match d.index "question" with
              | .error e => .error e
              | .ok q => q.index "difficulty"

/-- The `entry` dict built for each retained submission
(src/discord_lc_bot.py lines 136-141).  `titleSlug` and `title` are the raw
JSON field values of the submission; `date` is the submission's calendar
date in the caller's timezone as a day ordinal (the Python code stores its
`isoformat()` string, and `isoformat` is injective on dates). -/
structure Entry where
  titleSlug : Json
  title : Json
  difficulty : Json
  date : Int
deriving DecidableEq

/-- One iteration of the `for submission in submissions` loop of
`get_user_stats` (src/discord_lc_bot.py lines 125-141), up to the summary
update: `.ok none` is a `continue` (date out of window, or falsy
difficulty), `.ok (some e)` is a constructed entry, `.error` is a raised
exception.  `diffResp` is the network oracle giving the raw response of the
difficulty query for a slug; `today` and `localDate` abstract the calendar
(see the header comment). -/
def stepResult (diffResp : Json → Option Json) (today : Int)
    (localDate : Int → Int) (submission : Json) : Except PyErr (Option Entry) :=
  match submission.index "timestamp" with
  | .error e => .error e
  | .ok tsJ =>
      match pyInt tsJ with
      | .error e => .error e
      | .ok ts =>
          let submission_date := localDate ts
          if submission_date < today - 2 then .ok none
          else
            match submission.index "titleSlug" with
            | .error e => .error e
            | .ok slug =>
                match get_problem_difficulty (diffResp slug) with
                | .error e => .error e
                | .ok difficulty =>
                    if difficulty.truthy = false then .ok none
                    else
                      match submission.index "titleSlug",
                          submission.index "title" with
                      | .error e, _ => .error e
                      | .ok _, .error e => .error e
                      | .ok slug2, .ok title =>
                          .ok (some ⟨slug2, title, difficulty, submission_date⟩)

/-- The summary update at the end of the loop body
(src/discord_lc_bot.py lines 143-148): append the entry to the bucket whose
date it equals; a date matching none of `today`, `yesterday = today - 1`,
`two_days_ago = today - 2` falls through all three branches and the entry is
appended nowhere. -/
def addEntry (today : Int) (summary : PyDict (List Entry)) (e : Entry) :
    PyDict (List Entry) :=
  if e.date = today then dictUpdate summary "today" (fun l => l ++ [e])
  else if e.date = today - 1 then
    dictUpdate summary "yesterday" (fun l => l ++ [e])
  else if e.date = today - 2 then
    dictUpdate summary "two_days_ago" (fun l => l ++ [e])
  else summary

/-- The whole `for submission in submissions` loop of `get_user_stats`
(src/discord_lc_bot.py lines 125-148), threading the `summary` dict. -/
def processSubmissions (diffResp : Json → Option Json) (today : Int)
    (localDate : Int → Int) :
    List Json → PyDict (List Entry) → Except PyErr (PyDict (List Entry))
  | [], summary => .ok summary
  | submission :: rest, summary =>
      match stepResult diffResp today localDate submission with
      | .error e => .error e
      | .ok none => processSubmissions diffResp today localDate rest summary
      | .ok (some entry) =>
          processSubmissions diffResp today localDate rest
            (addEntry today summary entry)

/-- The summary dict as initialised at src/discord_lc_bot.py lines 113-117,
with its three keys in insertion order. -/
def initSummary : PyDict (List Entry) :=
  [("today", []), ("yesterday", []), ("two_days_ago", [])]

/-- `get_user_stats(handle, user_timezone)` (src/discord_lc_bot.py lines
82-151).  `fetchResp` is the oracle's raw response to the
recent-submissions query (`none` when `response.json()` raises
`json.JSONDecodeError`, which this function catches and turns into `return
None`); `diffResp` is the oracle for the per-slug difficulty queries.  The
`handle`/`user_timezone` arguments only parameterise the query and the
calendar and are absorbed into the oracles and into `today`/`localDate`. -/
def get_user_stats (fetchResp : Option Json) (diffResp : Json → Option Json)
    (today : Int) (localDate : Int → Int) :
    Except PyErr (Option (PyDict (List Entry))) :=
  match fetchResp with
  | none => .ok none
  | some data =>
      match pyContains "errors" data with
      | .error e => .error e
      | .ok true => .ok none
      | .ok false =>
          match data.index "data" with
          | .error e => .error e
          | .ok d =>
              match d.index "recentAcSubmissionList" with
              | .error e => .error e
              | .ok submissionsJ =>
                  match pyIter submissionsJ with
                  | .error e => .error e
                  | .ok submissions =>
                      match processSubmissions diffResp today localDate
                          submissions initSummary with
                      | .error e => .error e
                      | .ok summary => .ok (some summary)

/-- `get_leetcode_problem_url(slug)` (src/discord_lc_bot.py lines 49-51). -/
def get_leetcode_problem_url (slug : Json) : String :=
  "https://leetcode.com/problems/" ++ slug.pystr

/-- The `difficulty_colors` dict of `format_user_stats_embed`
(src/discord_lc_bot.py lines 157-161). -/
def difficulty_colors : PyDict String :=
  [("Easy", "🟩 **Easy**"), ("Medium", "🟧 **Medium**"),
   ("Hard", "🟥 **Hard**")]

/-- One line of a non-empty bucket's field value
(src/discord_lc_bot.py lines 166-169).  `difficulty_colors.get(d, default)`
looks the difficulty up only when it is a string key; any other value falls
to the default rendering. -/
def entryLine (entry : Entry) : String :=
  let problem_url := get_leetcode_problem_url entry.titleSlug
  let difficulty_text :=
    match entry.difficulty with
    | Json.str s => (dictGet difficulty_colors s).getD ("**" ++ s ++ "**")
    | j => "**" ++ j.pystr ++ "**"
  difficulty_text ++ " - [" ++ entry.title.pystr ++ "](" ++ problem_url ++
    ") | Date: `" ++ toString entry.date ++ "`\n"

/-- A Discord embed, reduced to the data the formatter sets: title, colour
and the ordered field list (all fields are added with `inline=False`). -/
structure Embed where
  title : String
  color : Nat
  fields : List (String × String)
deriving DecidableEq

/-- `format_user_stats_embed(handle, summary)` (src/discord_lc_bot.py lines
153-179).  The two `for day, entries in summary.items()` loops walk the
summary dict in its own (insertion) order; each adds one field per bucket,
and a final `📝 Summary:` field carries the per-bucket totals. -/
def format_user_stats_embed (handle : String)
    (summary : PyDict (List Entry)) : Embed :=
  let bucketFields := summary.map (fun p =>
    ("📅 " ++ pyCapitalize p.1 ++ ":",
     if p.2.isEmpty then "No problems solved."
     else String.join (p.2.map entryLine)))
  let summary_text := String.join (summary.map (fun p =>
    pyCapitalize p.1 ++ " -> Total: `" ++ toString p.2.length ++
      "` problems solved.\n"))
  { title := "🚀 " ++ handle ++ "\x27s LeetCode Stats"
    color := 0x00ff00
    fields := bucketFields ++ [("📝 Summary:", summary_text)] }

/-- A registration record: the value stored under a Discord user name in
`user_data` by `add_handle` (src/discord_lc_bot.py line 208). -/
structure UserEntry where
  handle : String
  timezone : String
deriving DecidableEq

/-- The bot's registry state: the in-memory `user_data` dict and the
contents of the `user_data.json` file (`none` when the file is absent). -/
structure RegistryState where
  user_data : PyDict UserEntry
  file : Option (PyDict UserEntry)
deriving DecidableEq

/-- `TIMEZONE_MAPPING` (src/discord_lc_bot.py lines 30-37), keys in
insertion order. -/
def TIMEZONE_MAPPING : PyDict String :=
  [("IST", "Asia/Kolkata"), ("CDT", "America/Chicago"),
   ("PDT", "America/Los_Angeles"), ("PST", "America/Los_Angeles"),
   ("EST", "America/New_York")]

/-- `load_user_data()` (src/discord_lc_bot.py lines 40-47): read the whole
file into `user_data`; on `FileNotFoundError` keep the current map (at
startup, the empty one). -/
def load_user_data (file : Option (PyDict UserEntry))
    (current : PyDict UserEntry) : PyDict UserEntry :=
  match file with
  | some d => d
  | none => current

/-- `save_user_data()` (src/discord_lc_bot.py lines 54-57): overwrite the
file with the full in-memory map. -/
def save_user_data (st : RegistryState) : RegistryState :=
  { st with file := some st.user_data }

/-- The message sent by `add_handle` for an unrecognised timezone
(src/discord_lc_bot.py line 204): `', '.join(TIMEZONE_MAPPING.keys())`. -/
def invalid_timezone_message : String :=
  "Invalid timezone. Please use one of: " ++
    String.intercalate ", " (TIMEZONE_MAPPING.map (fun p => p.1))

/-- The success message of `add_handle` (src/discord_lc_bot.py line 210);
`tz` is the upper-cased abbreviation. -/
def added_handle_message (userName handle tz : String) : String :=
  "Added LeetCode handle for " ++ userName ++ ": " ++ handle ++
    " (Timezone: " ++ tz ++ ")"

/-- `add_handle(interaction, handle, timezone)` (src/discord_lc_bot.py
lines 200-210): upper-case the timezone, reject it with the valid-choice
list if unmapped, otherwise store `{handle, canonical timezone}` under the
user's name, persist the whole map, and acknowledge.  Returns the new state
and the message sent. -/
def add_handle (st : RegistryState) (userName handle timezone : String) :
    RegistryState × String :=
  let tz := pyUpper timezone
  match dictGet TIMEZONE_MAPPING tz with
  | none => (st, invalid_timezone_message)
  | some pytz_timezone =>
      let ud := dictSet st.user_data userName ⟨handle, pytz_timezone⟩
      (save_user_data { st with user_data := ud },
       added_handle_message userName handle tz)

/-- The retained entries of a submission list, in fetch order: the loop of
`get_user_stats` restricted to its per-submission computation, forgetting
the bucket assignment.  (`.error` when some iteration raises.) -/
def collectSteps (diffResp : Json → Option Json) (today : Int)
    (localDate : Int → Int) : List Json → Except PyErr (List Entry)
  | [] => .ok []
  | sub :: rest =>
      match stepResult diffResp today localDate sub with
      | .error e => .error e
      | .ok none => collectSteps diffResp today localDate rest
      | .ok (some e) =>
          match collectSteps diffResp today localDate rest with
          | .error err => .error err
          | .ok es => .ok (e :: es)

/-! ### Helper lemmas -/

/-- Reading back the key just written. -/
lemma dictGet_dictSet {α : Type} (m : PyDict α) (k : String) (v : α) :
    dictGet (dictSet m k v) k = some v := by
  induction m with
  | nil => simp [dictGet, dictSet]
  | cons p rest ih =>
      obtain ⟨k', v'⟩ := p
      by_cases h : k' = k
      · simp [dictSet, h, dictGet]
      · simp [dictSet, h, dictGet, ih]

/-- A dict lookup succeeds exactly on the stored keys. -/
lemma dictGet_isSome_iff {α : Type} (m : PyDict α) (k : String) :
    (dictGet m k).isSome = true ↔ k ∈ m.map Prod.fst := by
  induction m with
  | nil => simp [dictGet]
  | cons p rest ih =>
      obtain ⟨k', v⟩ := p
      by_cases h : k' = k
      · subst h; simp [dictGet]
      · simp [dictGet, h, ih, Ne.symm h]

/-- The loop is the fold of `addEntry` over the retained entries. -/
lemma proc_char (d : Json → Option Json) (t : Int) (ld : Int → Int)
    (subs : List Json) : ∀ summary : PyDict (List Entry),
    processSubmissions d t ld subs summary =
      (collectSteps d t ld subs).map (fun es => es.foldl (addEntry t) summary) := by
  induction subs with
  | nil => intro summary; simp [processSubmissions, collectSteps, Except.map]
  | cons sub rest ih =>
      intro summary
      cases hs : stepResult d t ld sub with
      | error e => simp [processSubmissions, collectSteps, hs, Except.map]
      | ok oe =>
          cases oe with
          | none => simp [processSubmissions, collectSteps, hs, ih]
          | some e =>
              simp only [processSubmissions, collectSteps, hs]
              rw [ih (addEntry t summary e)]
              cases hc : collectSteps d t ld rest <;>
                simp [Except.map, List.foldl_cons]

/-- Folding `addEntry` over a three-bucket summary appends, to each bucket,
the in-order filter of the entries whose date matches that bucket. -/
lemma fold_buckets (t : Int) (es : List Entry) : ∀ a b c : List Entry,
    es.foldl (addEntry t)
        [("today", a), ("yesterday", b), ("two_days_ago", c)] =
      [("today", a ++ es.filter (fun e => decide (e.date = t))),
       ("yesterday", b ++ es.filter (fun e => decide (e.date = t - 1))),
       ("two_days_ago", c ++ es.filter (fun e => decide (e.date = t - 2)))] := by
  induction es with
  | nil => intro a b c; simp
  | cons e es ih =>
      intro a b c
      have ht1 : ¬(t = t - 1) := by omega
      have ht2 : ¬(t = t - 2) := by omega
      have ht3 : ¬(t - 1 = t) := by omega
      have ht4 : ¬(t - 1 = t - 2) := by omega
      have ht5 : ¬(t - 2 = t) := by omega
      have ht6 : ¬(t - 2 = t - 1) := by omega
      by_cases h1 : e.date = t
      · have h2 : ¬e.date = t - 1 := by omega
        have h3 : ¬e.date = t - 2 := by omega
        simp only [List.foldl_cons, addEntry, if_pos h1, if_neg h2, if_neg h3]
        rw [show dictUpdate [("today", a), ("yesterday", b),
              ("two_days_ago", c)] "today" (fun l => l ++ [e]) =
            [("today", a ++ [e]), ("yesterday", b), ("two_days_ago", c)]
          from rfl]
        rw [ih (a ++ [e]) b c]
        simp [List.filter_cons, h1, h2, h3, ht1, ht2]
      · by_cases h2 : e.date = t - 1
        · have h3 : ¬e.date = t - 2 := by omega
          simp only [List.foldl_cons, addEntry, if_neg h1, if_pos h2,
            if_neg h3]
          rw [show dictUpdate [("today", a), ("yesterday", b),
                ("two_days_ago", c)] "yesterday" (fun l => l ++ [e]) =
              [("today", a), ("yesterday", b ++ [e]), ("two_days_ago", c)]
            from rfl]
          rw [ih a (b ++ [e]) c]
          simp [List.filter_cons, h1, h2, h3, ht3, ht4]
        · by_cases h3 : e.date = t - 2
          · simp only [List.foldl_cons, addEntry, if_neg h1, if_neg h2,
              if_pos h3]
            rw [show dictUpdate [("today", a), ("yesterday", b),
                  ("two_days_ago", c)] "two_days_ago" (fun l => l ++ [e]) =
                [("today", a), ("yesterday", b), ("two_days_ago", c ++ [e])]
              from rfl]
            rw [ih a b (c ++ [e])]
            simp [List.filter_cons, h1, h2, h3, ht5, ht6]
          · simp only [List.foldl_cons, addEntry, if_neg h1, if_neg h2,
              if_neg h3]
            rw [ih a b c]
            simp [List.filter_cons, h1, h2, h3]

/-- A loop iteration that `continue`s contributes nothing: deleting such a
submission from the fetched list leaves the loop's result unchanged. -/
lemma proc_drop (d : Json → Option Json) (t : Int) (ld : Int → Int)
    (sub : Json) (hstep : stepResult d t ld sub = .ok none) :
    ∀ (pre post : List Json) (sm : PyDict (List Entry)),
    processSubmissions d t ld (pre ++ sub :: post) sm =
      processSubmissions d t ld (pre ++ post) sm := by
  intro pre
  induction pre with
  | nil => intro post sm; simp [processSubmissions, hstep]
  | cons x pre ih =>
      intro post sm
      simp only [List.cons_append, processSubmissions]
      cases hx : stepResult d t ld x with
      | error e => rfl
      | ok oe =>
          cases oe with
          | none => exact ih post sm
          | some e => exact ih post (addEntry t sm e)

/-- A loop iteration that raises aborts the whole loop: once the iterations
before it complete, the loop's result is that exception, whatever follows. -/
lemma proc_raise (d : Json → Option Json) (t : Int) (ld : Int → Int)
    (sub : Json) (err : PyErr)
    (hstep : stepResult d t ld sub = .error err) :
    ∀ (pre post : List Json) (sm sm' : PyDict (List Entry)),
    processSubmissions d t ld pre sm = .ok sm' →
    processSubmissions d t ld (pre ++ sub :: post) sm = .error err := by
  intro pre
  induction pre with
  | nil =>
      intro post sm sm' hpre
      simp [processSubmissions, hstep]
  | cons x pre ih =>
      intro post sm sm' hpre
      simp only [List.cons_append, processSubmissions] at hpre ⊢
      cases hx : stepResult d t ld x with
      | error e =>
          rw [hx] at hpre
          exact absurd hpre (by simp)
      | ok oe =>
          cases oe with
          | none =>
              rw [hx] at hpre
              exact ih post sm sm' hpre
          | some e =>
              rw [hx] at hpre
              exact ih post (addEntry t sm e) sm' hpre

/-- Inversion of a completed, non-`None` aggregation: the fetch decoded
without an `errors` member, the submissions were extracted, every loop
iteration completed, and the result is the three filtered buckets. -/
lemma get_user_stats_ok_some {data : Json} {d : Json → Option Json}
    {t : Int} {ld : Int → Int} {s : PyDict (List Entry)}
    (h : get_user_stats (some data) d t ld = .ok (some s)) :
    pyContains "errors" data = .ok false ∧
    ∃ (dd sj : Json) (subs : List Json) (es : List Entry),
      data.index "data" = .ok dd ∧
      dd.index "recentAcSubmissionList" = .ok sj ∧
      pyIter sj = .ok subs ∧
      collectSteps d t ld subs = .ok es ∧
      s = [("today", es.filter (fun e => decide (e.date = t))),
           ("yesterday", es.filter (fun e => decide (e.date = t - 1))),
           ("two_days_ago", es.filter (fun e => decide (e.date = t - 2)))] := by
  cases hc : pyContains "errors" data with
  | error e => simp [get_user_stats, hc] at h
  | ok b =>
      cases b with
      | true => simp [get_user_stats, hc] at h
      | false =>
          cases hd : data.index "data" with
          | error e => simp [get_user_stats, hc, hd] at h
          | ok dd =>
              cases hsj : dd.index "recentAcSubmissionList" with
              | error e => simp [get_user_stats, hc, hd, hsj] at h
              | ok sj =>
                  cases hit : pyIter sj with
                  | error e => simp [get_user_stats, hc, hd, hsj, hit] at h
                  | ok subs =>
                      cases hcol : collectSteps d t ld subs with
                      | error e =>
                          simp [get_user_stats, hc, hd, hsj, hit, proc_char,
                            hcol, Except.map] at h
                      | ok es =>
                          simp only [get_user_stats, hc, hd, hsj, hit,
                            proc_char, hcol, Except.map] at h
                          rw [show initSummary =
                            [("today", ([] : List Entry)), ("yesterday", []),
                             ("two_days_ago", [])] from rfl,
                            fold_buckets t es [] [] []] at h
                          simp only [List.nil_append] at h
                          injection h with h'
                          injection h' with h''
                          exact ⟨rfl, dd, sj, subs, es, rfl, hsj, hit, hcol,
                            h''.symm⟩

/-! ### Claim theorems -/

/-- C1 counterexample: the claim fails for a difficulty lookup that fails
by raising.  With a successful fetch of one in-window submission whose
difficulty response is undecodable, `get_problem_difficulty` raises
`json.JSONDecodeError`; `get_user_stats` has no handler around the lookup,
so the whole aggregation raises — the submission is not dropped alone, and
no (even partially filled) three-bucket summary is returned. -/
theorem claim_C1_counterexample :
    get_user_stats
        (some (Json.obj [("data", Json.obj [("recentAcSubmissionList",
          Json.arr [Json.obj [("timestamp", Json.num 0),
            ("titleSlug", Json.str "a"), ("title", Json.str "A")]])])]))
        (fun _ => none) 0 (fun _ => 0) =
      .error PyErr.jsonDecodeError ∧
    get_user_stats
        (some (Json.obj [("data", Json.obj [("recentAcSubmissionList",
          Json.arr [Json.obj [("timestamp", Json.num 0),
            ("titleSlug", Json.str "a"), ("title", Json.str "A")]])])]))
        (fun _ => none) 0 (fun _ => 0) ≠ .ok none := by decide

/-- C1 (amended): `get_user_stats` returns `None` exactly when the initial
recent-submissions fetch fails, and a difficulty lookup failure that
RETURNS a falsy value drops only that submission — but a difficulty lookup
failure that RAISES aborts the whole aggregation, returning no summary.
Part 1: an undecodable fetch response yields `None`.  Part 2: a decoded
fetch object with a top-level `errors` key yields `None`.  Part 3: when the
decoded fetch object has no `errors` key, the function never returns `None`
(every completed run returns a summary).  Part 4: a submission whose
difficulty lookup returns a falsy value (`None` in particular) is dropped
alone — deleting it from the fetched list leaves the rest of the
aggregation loop\x27s result unchanged.  Part 5: a submission whose
difficulty lookup raises (an undecodable or structurally malformed
difficulty response) makes the whole loop raise that exception as soon as
the preceding iterations complete, so no summary is produced. -/
theorem claim_C1_null_iff_fetch_failure (d : Json → Option Json) (t : Int)
    (ld : Int → Int) :
    (get_user_stats none d t ld = .ok none) ∧
    (∀ kvs, hasKey kvs "errors" = true →
      get_user_stats (some (Json.obj kvs)) d t ld = .ok none) ∧
    (∀ kvs, hasKey kvs "errors" = false →
      get_user_stats (some (Json.obj kvs)) d t ld ≠ .ok none) ∧
    (∀ sub tsJ slug dv, ∀ n : Int,
      Json.index sub "timestamp" = .ok tsJ → pyInt tsJ = .ok n →
      ¬(ld n < t - 2) → Json.index sub "titleSlug" = .ok slug →
      get_problem_difficulty (d slug) = .ok dv → dv.truthy = false →
      ∀ pre post sm,
        processSubmissions d t ld (pre ++ sub :: post) sm =
          processSubmissions d t ld (pre ++ post) sm) ∧
    (∀ sub tsJ slug, ∀ n : Int, ∀ err : PyErr,
      Json.index sub "timestamp" = .ok tsJ → pyInt tsJ = .ok n →
      ¬(ld n < t - 2) → Json.index sub "titleSlug" = .ok slug →
      get_problem_difficulty (d slug) = .error err →
      ∀ pre post sm sm',
        processSubmissions d t ld pre sm = .ok sm' →
        processSubmissions d t ld (pre ++ sub :: post) sm = .error err) := by
  refine ⟨rfl, ?_, ?_, ?_, ?_⟩
  · intro kvs h
    simp [get_user_stats, pyContains, h]
  · intro kvs h
    simp only [get_user_stats, pyContains, h]
    cases hd : Json.index (Json.obj kvs) "data" with
    | error e => simp [hd]
    | ok dd =>
        cases hsj : dd.index "recentAcSubmissionList" with
        | error e => simp [hd, hsj]
        | ok sj =>
            cases hit : pyIter sj with
            | error e => simp [hd, hsj, hit]
            | ok subs =>
                cases hp : processSubmissions d t ld subs initSummary with
                | error e => simp [hd, hsj, hit, hp]
                | ok summary => simp [hd, hsj, hit, hp]
  · intro sub tsJ slug dv n hts hn hwin hslug hdiff hfalsy pre post sm
    apply proc_drop
    simp only [stepResult, hts, hn, hslug, hdiff]
    rw [if_neg hwin, if_pos hfalsy]
  · intro sub tsJ slug n err hts hn hwin hslug hdiff pre post sm sm' hpre
    refine proc_raise d t ld sub err ?_ pre post sm sm' hpre
    simp only [stepResult, hts, hn, hslug, hdiff]
    rw [if_neg hwin]

/-- C1 witness: a decoded fetch response `{"errors": null}` makes the
aggregation return `None`; a submission whose difficulty query answers
`{"errors": null}` (so the lookup returns `None`) is dropped without
affecting the rest of the loop; and a submission whose difficulty response
is undecodable makes the loop raise `JSONDecodeError`. -/
theorem claim_C1_witness :
    get_user_stats (some (Json.obj [("errors", Json.null)]))
        (fun _ => some (Json.obj [("errors", Json.null)])) 0 (fun _ => 0) =
      .ok none ∧
    processSubmissions (fun _ => some (Json.obj [("errors", Json.null)])) 0
        (fun _ => 0)
        [Json.obj [("timestamp", Json.num 0), ("titleSlug", Json.str "a"),
          ("title", Json.str "A")]] initSummary =
      processSubmissions (fun _ => some (Json.obj [("errors", Json.null)])) 0
        (fun _ => 0) [] initSummary ∧
    processSubmissions (fun _ => none) 0 (fun _ => 0)
        [Json.obj [("timestamp", Json.num 0), ("titleSlug", Json.str "a"),
          ("title", Json.str "A")]] initSummary =
      .error PyErr.jsonDecodeError := by
  refine ⟨?_, ?_, ?_⟩
  · exact (claim_C1_null_iff_fetch_failure
      (fun _ => some (Json.obj [("errors", Json.null)])) 0 (fun _ => 0)).2.1
      [("errors", Json.null)] (by decide)
  · exact (claim_C1_null_iff_fetch_failure
      (fun _ => some (Json.obj [("errors", Json.null)])) 0 (fun _ => 0)).2.2.2.1
      (Json.obj [("timestamp", Json.num 0), ("titleSlug", Json.str "a"),
        ("title", Json.str "A")])
      (Json.num 0) (Json.str "a") Json.null 0 (by decide) (by decide)
      (by decide) (by decide) (by decide) (by decide) [] [] initSummary
  · exact (claim_C1_null_iff_fetch_failure
      (fun _ => none) 0 (fun _ => 0)).2.2.2.2
      (Json.obj [("timestamp", Json.num 0), ("titleSlug", Json.str "a"),
        ("title", Json.str "A")])
      (Json.num 0) (Json.str "a") 0 PyErr.jsonDecodeError (by decide)
      (by decide) (by decide) (by decide) (by decide) [] [] initSummary
      initSummary (by decide)

/-- C3 counterexample: `get_problem_difficulty` does raise to its caller.
An undecodable response raises `json.JSONDecodeError` (the function has no
`try`/`except` around `response.json()`), and a decoded response without
the expected structure (here `{"data": null}`) raises `TypeError` — in
neither case is `None` returned. -/
theorem claim_C3_counterexample :
    get_problem_difficulty none = .error PyErr.jsonDecodeError ∧
    get_problem_difficulty none ≠ .ok Json.null ∧
    get_problem_difficulty (some (Json.obj [("data", Json.null)])) =
      .error PyErr.typeError := by decide

/-- C3 (amended): `get_problem_difficulty` returns `None` only for a
decoded response carrying an `errors` member (part 1); an undecodable
response raises `JSONDecodeError` to the caller (part 2); and when the
decoded response has no `errors` member and the nested
`data -> question -> difficulty` path resolves, that difficulty is returned
(part 3).  The claim's "never raises" is false: decode and structure
failures propagate. -/
theorem claim_C3_difficulty_error_policy :
    (∀ data : Json, pyContains "errors" data = .ok true →
      get_problem_difficulty (some data) = .ok Json.null) ∧
    (get_problem_difficulty none = .error PyErr.jsonDecodeError) ∧
    (∀ data dd q v : Json,
      pyContains "errors" data = .ok false →
      data.index "data" = .ok dd → dd.index "question" = .ok q →
      q.index "difficulty" = .ok v →
      get_problem_difficulty (some data) = .ok v) := by
  refine ⟨?_, rfl, ?_⟩
  · intro data h
    simp [get_problem_difficulty, h]
  · intro data dd q v he hd hq hv
    simp [get_problem_difficulty, he, hd, hq, hv]

/-- C3 witness: the difficulty of a well-formed response is returned, and
an `errors` response yields `None`. -/
theorem claim_C3_witness :
    get_problem_difficulty (some (Json.obj [("data", Json.obj [("question",
        Json.obj [("difficulty", Json.str "Easy")])])])) =
      .ok (Json.str "Easy") ∧
    get_problem_difficulty (some (Json.obj [("errors", Json.arr [])])) =
      .ok Json.null := by
  constructor
  · exact claim_C3_difficulty_error_policy.2.2
      (Json.obj [("data", Json.obj [("question",
        Json.obj [("difficulty", Json.str "Easy")])])])
      (Json.obj [("question", Json.obj [("difficulty", Json.str "Easy")])])
      (Json.obj [("difficulty", Json.str "Easy")]) (Json.str "Easy")
      (by decide) (by decide) (by decide) (by decide)
  · exact claim_C3_difficulty_error_policy.1
      (Json.obj [("errors", Json.arr [])]) (by decide)

/-- C5: a successful fetch whose decoded response carries an empty
`recentAcSubmissionList` makes `get_user_stats` return the summary with all
three keys `today`, `yesterday`, `two_days_ago` mapped to empty lists —
not `None`. -/
theorem claim_C5_empty_submission_list (d : Json → Option Json) (t : Int)
    (ld : Int → Int) (data dd : Json)
    (hne : pyContains "errors" data = .ok false)
    (h1 : data.index "data" = .ok dd)
    (h2 : dd.index "recentAcSubmissionList" = .ok (Json.arr [])) :
    get_user_stats (some data) d t ld =
      .ok (some [("today", []), ("yesterday", []), ("two_days_ago", [])]) := by
  simp [get_user_stats, hne, h1, h2, pyIter, processSubmissions, initSummary]

/-- C5 witness: the empty-list response at a concrete input. -/
theorem claim_C5_witness :
    get_user_stats
        (some (Json.obj [("data",
          Json.obj [("recentAcSubmissionList", Json.arr [])])]))
        (fun _ => none) 7 (fun n => n) =
      .ok (some [("today", []), ("yesterday", []), ("two_days_ago", [])]) :=
  claim_C5_empty_submission_list (fun _ => none) 7 (fun n => n)
    (Json.obj [("data", Json.obj [("recentAcSubmissionList", Json.arr [])])])
    (Json.obj [("recentAcSubmissionList", Json.arr [])])
    (by decide) (by decide) (by decide)

/-- C6: a submission whose timestamp converts to a local date strictly
before `today - 2` is skipped silently.  Part 1: its loop iteration yields
`continue` for every difficulty oracle — the iteration's outcome does not
depend on the oracle at all, i.e. no difficulty lookup is made for it.
Part 2: deleting the submission from the fetched list leaves the loop's
result unchanged, so it contributes to no bucket of any summary. -/
theorem claim_C6_out_of_window_skipped (t : Int) (ld : Int → Int)
    (sub tsJ : Json) (n : Int)
    (hts : sub.index "timestamp" = .ok tsJ)
    (hn : pyInt tsJ = .ok n)
    (hold : ld n < t - 2) :
    (∀ d : Json → Option Json, stepResult d t ld sub = .ok none) ∧
    (∀ (d : Json → Option Json) (pre post : List Json)
        (sm : PyDict (List Entry)),
      processSubmissions d t ld (pre ++ sub :: post) sm =
        processSubmissions d t ld (pre ++ post) sm) := by
  have hstep : ∀ d : Json → Option Json, stepResult d t ld sub = .ok none := by
    intro d
    simp only [stepResult, hts, hn]
    rw [if_pos hold]
  exact ⟨hstep, fun d pre post sm => proc_drop d t ld sub (hstep d) pre post sm⟩

/-- C6 witness: with `today = 10` and every timestamp mapping to local day
`0` (strictly older than day 8), the submission is skipped for an arbitrary
oracle and removing it changes nothing. -/
theorem claim_C6_witness :
    stepResult (fun _ => none) 10 (fun _ => 0)
        (Json.obj [("timestamp", Json.num 5)]) = .ok none ∧
    processSubmissions (fun _ => none) 10 (fun _ => 0)
        ([] ++ Json.obj [("timestamp", Json.num 5)] :: []) initSummary =
      processSubmissions (fun _ => none) 10 (fun _ => 0) ([] ++ []) initSummary := by
  constructor
  · exact (claim_C6_out_of_window_skipped 10 (fun _ => 0)
      (Json.obj [("timestamp", Json.num 5)]) (Json.num 5) 5
      (by decide) (by decide) (by decide)).1 (fun _ => none)
  · exact (claim_C6_out_of_window_skipped 10 (fun _ => 0)
      (Json.obj [("timestamp", Json.num 5)]) (Json.num 5) 5
      (by decide) (by decide) (by decide)).2 (fun _ => none) [] [] initSummary

/-- C2 counterexample: the claim fails for a retained submission whose local
date is in the future.  With `today = 0` and the timezone conversion
placing the submission on local day `1` (which is not strictly older than
`two_days_ago = -2`, so the submission is retained, and its difficulty
lookup succeeds with `"Easy"`), the loop constructs the entry — yet the
returned summary has all three buckets empty: the entry matches none of
the three buckets. -/
theorem claim_C2_counterexample :
    stepResult
        (fun _ => some (Json.obj [("data", Json.obj [("question",
          Json.obj [("difficulty", Json.str "Easy")])])])) 0 (fun _ => 1)
        (Json.obj [("timestamp", Json.num 0), ("titleSlug", Json.str "a"),
          ("title", Json.str "A")]) =
      .ok (some (Entry.mk (Json.str "a") (Json.str "A") (Json.str "Easy")
        1)) ∧
    get_user_stats
        (some (Json.obj [("data", Json.obj [("recentAcSubmissionList",
          Json.arr [Json.obj [("timestamp", Json.num 0),
            ("titleSlug", Json.str "a"), ("title", Json.str "A")]])])]))
        (fun _ => some (Json.obj [("data", Json.obj [("question",
          Json.obj [("difficulty", Json.str "Easy")])])])) 0 (fun _ => 1) =
      .ok (some [("today", []), ("yesterday", []), ("two_days_ago", [])]) := by
  decide

/-- C2 (amended): for every retained submission of a completed aggregation
(`es` being the retained entries, in fetch order), the constructed entry
lies in a bucket exactly when its local date equals that bucket\x27s date:
it is in `today`/`yesterday`/`two_days_ago` iff its date is
`today`/`today - 1`/`today - 2` respectively.  For local dates within the
window `[today - 2, today]` this is the claimed partition into exactly one
matching bucket; a retained submission whose local date is after `today`
(not excluded by the "strictly older than two days ago" filter) satisfies
none of the three equalities and so appears in no bucket. -/
theorem claim_C2_bucket_partition (d : Json → Option Json) (t : Int)
    (ld : Int → Int) (data dd sj : Json) (subs : List Json)
    (es : List Entry) (s : PyDict (List Entry)) (e : Entry)
    (h1 : data.index "data" = .ok dd)
    (h2 : dd.index "recentAcSubmissionList" = .ok sj)
    (h3 : pyIter sj = .ok subs)
    (h4 : collectSteps d t ld subs = .ok es)
    (h5 : get_user_stats (some data) d t ld = .ok (some s))
    (he : e ∈ es) :
    (e ∈ (dictGet s "today").getD [] ↔ e.date = t) ∧
    (e ∈ (dictGet s "yesterday").getD [] ↔ e.date = t - 1) ∧
    (e ∈ (dictGet s "two_days_ago").getD [] ↔ e.date = t - 2) := by
  obtain ⟨hc, dd2, sj2, subs2, es2, hd2, hsj2, hit2, hcol2, hs⟩ :=
    get_user_stats_ok_some h5
  rw [h1] at hd2
  injection hd2 with hdd
  subst hdd
  rw [h2] at hsj2
  injection hsj2 with hsj3
  subst hsj3
  rw [h3] at hit2
  injection hit2 with hsubs
  subst hsubs
  rw [h4] at hcol2
  injection hcol2 with hes
  subst hes
  subst hs
  refine ⟨?_, ?_, ?_⟩ <;> simp [dictGet, List.mem_filter, he]

/-- C2 witness: a run with one submission dated `today` — its entry is in
the `today` bucket and in no other. -/
theorem claim_C2_witness :
    (Entry.mk (Json.str "a") (Json.str "A") (Json.str "Easy") 0 ∈
      (dictGet [("today", [Entry.mk (Json.str "a") (Json.str "A")
          (Json.str "Easy") 0]), ("yesterday", []), ("two_days_ago", [])]
        "today").getD [] ↔ (0 : Int) = 0) ∧
    (Entry.mk (Json.str "a") (Json.str "A") (Json.str "Easy") 0 ∈
      (dictGet [("today", [Entry.mk (Json.str "a") (Json.str "A")
          (Json.str "Easy") 0]), ("yesterday", []), ("two_days_ago", [])]
        "yesterday").getD [] ↔ (0 : Int) = 0 - 1) ∧
    (Entry.mk (Json.str "a") (Json.str "A") (Json.str "Easy") 0 ∈
      (dictGet [("today", [Entry.mk (Json.str "a") (Json.str "A")
          (Json.str "Easy") 0]), ("yesterday", []), ("two_days_ago", [])]
        "two_days_ago").getD [] ↔ (0 : Int) = 0 - 2) :=
  claim_C2_bucket_partition
    (fun _ => some (Json.obj [("data", Json.obj [("question",
      Json.obj [("difficulty", Json.str "Easy")])])]))
    0 (fun _ => 0)
    (Json.obj [("data", Json.obj [("recentAcSubmissionList",
      Json.arr [Json.obj [("timestamp", Json.num 0),
        ("titleSlug", Json.str "a"), ("title", Json.str "A")]])])])
    (Json.obj [("recentAcSubmissionList",
      Json.arr [Json.obj [("timestamp", Json.num 0),
        ("titleSlug", Json.str "a"), ("title", Json.str "A")]])])
    (Json.arr [Json.obj [("timestamp", Json.num 0),
      ("titleSlug", Json.str "a"), ("title", Json.str "A")]])
    [Json.obj [("timestamp", Json.num 0), ("titleSlug", Json.str "a"),
      ("title", Json.str "A")]]
    [Entry.mk (Json.str "a") (Json.str "A") (Json.str "Easy") 0]
    [("today", [Entry.mk (Json.str "a") (Json.str "A") (Json.str "Easy") 0]),
     ("yesterday", []), ("two_days_ago", [])]
    (Entry.mk (Json.str "a") (Json.str "A") (Json.str "Easy") 0)
    (by decide) (by decide) (by decide) (by decide) (by decide) (by decide)

/-- C10: each bucket of a completed aggregation is the order-preserving
filter, by that bucket\x27s date, of the retained entries `es` taken in
fetch order (`collectSteps` walks the fetched submission list left to
right).  In particular, for any two retained submissions placed in the same
bucket, the one earlier in the fetched list appears earlier in the
bucket\x27s entry list. -/
theorem claim_C10_buckets_preserve_fetch_order (d : Json → Option Json)
    (t : Int) (ld : Int → Int) (data dd sj : Json) (subs : List Json)
    (es : List Entry) (s : PyDict (List Entry))
    (h1 : data.index "data" = .ok dd)
    (h2 : dd.index "recentAcSubmissionList" = .ok sj)
    (h3 : pyIter sj = .ok subs)
    (h4 : collectSteps d t ld subs = .ok es)
    (h5 : get_user_stats (some data) d t ld = .ok (some s)) :
    dictGet s "today" = some (es.filter (fun e => decide (e.date = t))) ∧
    dictGet s "yesterday" =
      some (es.filter (fun e => decide (e.date = t - 1))) ∧
    dictGet s "two_days_ago" =
      some (es.filter (fun e => decide (e.date = t - 2))) := by
  obtain ⟨hc, dd2, sj2, subs2, es2, hd2, hsj2, hit2, hcol2, hs⟩ :=
    get_user_stats_ok_some h5
  rw [h1] at hd2
  injection hd2 with hdd
  subst hdd
  rw [h2] at hsj2
  injection hsj2 with hsj3
  subst hsj3
  rw [h3] at hit2
  injection hit2 with hsubs
  subst hsubs
  rw [h4] at hcol2
  injection hcol2 with hes
  subst hes
  subst hs
  exact ⟨rfl, rfl, rfl⟩

/-- C10 witness: two same-day submissions land in the `today` bucket in
fetch order. -/
theorem claim_C10_witness :
    dictGet [("today", [Entry.mk (Json.str "a") (Json.str "A")
        (Json.str "Easy") 0, Entry.mk (Json.str "b") (Json.str "B")
        (Json.str "Easy") 0]), ("yesterday", []), ("two_days_ago", [])]
      "today" =
      some ([Entry.mk (Json.str "a") (Json.str "A") (Json.str "Easy") 0,
        Entry.mk (Json.str "b") (Json.str "B") (Json.str "Easy") 0].filter
          (fun e => decide (e.date = 0))) ∧
    dictGet [("today", [Entry.mk (Json.str "a") (Json.str "A")
        (Json.str "Easy") 0, Entry.mk (Json.str "b") (Json.str "B")
        (Json.str "Easy") 0]), ("yesterday", []), ("two_days_ago", [])]
      "yesterday" =
      some ([Entry.mk (Json.str "a") (Json.str "A") (Json.str "Easy") 0,
        Entry.mk (Json.str "b") (Json.str "B") (Json.str "Easy") 0].filter
          (fun e => decide (e.date = 0 - 1))) ∧
    dictGet [("today", [Entry.mk (Json.str "a") (Json.str "A")
        (Json.str "Easy") 0, Entry.mk (Json.str "b") (Json.str "B")
        (Json.str "Easy") 0]), ("yesterday", []), ("two_days_ago", [])]
      "two_days_ago" =
      some ([Entry.mk (Json.str "a") (Json.str "A") (Json.str "Easy") 0,
        Entry.mk (Json.str "b") (Json.str "B") (Json.str "Easy") 0].filter
          (fun e => decide (e.date = 0 - 2))) :=
  claim_C10_buckets_preserve_fetch_order
    (fun _ => some (Json.obj [("data", Json.obj [("question",
      Json.obj [("difficulty", Json.str "Easy")])])]))
    0 (fun _ => 0)
    (Json.obj [("data", Json.obj [("recentAcSubmissionList",
      Json.arr [Json.obj [("timestamp", Json.num 0),
        ("titleSlug", Json.str "a"), ("title", Json.str "A")],
        Json.obj [("timestamp", Json.num 0),
        ("titleSlug", Json.str "b"), ("title", Json.str "B")]])])])
    (Json.obj [("recentAcSubmissionList",
      Json.arr [Json.obj [("timestamp", Json.num 0),
        ("titleSlug", Json.str "a"), ("title", Json.str "A")],
        Json.obj [("timestamp", Json.num 0),
        ("titleSlug", Json.str "b"), ("title", Json.str "B")]])])
    (Json.arr [Json.obj [("timestamp", Json.num 0),
      ("titleSlug", Json.str "a"), ("title", Json.str "A")],
      Json.obj [("timestamp", Json.num 0),
      ("titleSlug", Json.str "b"), ("title", Json.str "B")]])
    [Json.obj [("timestamp", Json.num 0), ("titleSlug", Json.str "a"),
      ("title", Json.str "A")],
     Json.obj [("timestamp", Json.num 0), ("titleSlug", Json.str "b"),
      ("title", Json.str "B")]]
    [Entry.mk (Json.str "a") (Json.str "A") (Json.str "Easy") 0,
     Entry.mk (Json.str "b") (Json.str "B") (Json.str "Easy") 0]
    [("today", [Entry.mk (Json.str "a") (Json.str "A") (Json.str "Easy") 0,
      Entry.mk (Json.str "b") (Json.str "B") (Json.str "Easy") 0]),
     ("yesterday", []), ("two_days_ago", [])]
    (by decide) (by decide) (by decide) (by decide) (by decide)

/-- C4 counterexample: the formatter does NOT impose a fixed bucket order —
it walks the summary dict in the dict\x27s own iteration (insertion) order.
A summary whose keys were inserted as `yesterday, today, two_days_ago`
is rendered with its fields in that order, not in the claimed fixed order
`today, yesterday, two_days_ago`. -/
theorem claim_C4_counterexample :
    (format_user_stats_embed "user"
        [("yesterday", []), ("today", []), ("two_days_ago", [])]).fields.map
        Prod.fst =
      ["📅 Yesterday:", "📅 Today:", "📅 Two_days_ago:", "📝 Summary:"] ∧
    (format_user_stats_embed "user"
        [("yesterday", []), ("today", []), ("two_days_ago", [])]).fields.map
        Prod.fst ≠
      ["📅 Today:", "📅 Yesterday:", "📅 Two_days_ago:", "📝 Summary:"] := by
  decide

/-- C4 (amended): the formatter renders one field per bucket in the input
map\x27s own iteration order, followed by the `📝 Summary:` field (part 1);
the fixed order `today, yesterday, two_days_ago` nevertheless holds for
every summary actually produced by `get_user_stats`, because the aggregator
always constructs the summary dict with its keys inserted in exactly that
order (part 2). -/
theorem claim_C4_field_order :
    (∀ (handle : String) (summary : PyDict (List Entry)),
      (format_user_stats_embed handle summary).fields.map Prod.fst =
        summary.map (fun p => "📅 " ++ pyCapitalize p.1 ++ ":") ++
          ["📝 Summary:"]) ∧
    (∀ (fetchResp : Option Json) (d : Json → Option Json) (t : Int)
        (ld : Int → Int) (s : PyDict (List Entry)),
      get_user_stats fetchResp d t ld = .ok (some s) →
      s.map Prod.fst = ["today", "yesterday", "two_days_ago"]) := by
  constructor
  · intro handle summary
    simp [format_user_stats_embed, List.map_append, List.map_map,
      Function.comp]
  · intro fetchResp d t ld s h
    cases fetchResp with
    | none => simp [get_user_stats] at h
    | some data =>
        obtain ⟨-, dd, sj, subs, es, -, -, -, -, hs⟩ :=
          get_user_stats_ok_some h
        subst hs
        rfl

/-- C4 witness: the key order of a summary produced by a concrete
successful aggregation. -/
theorem claim_C4_witness :
    ([("today", ([] : List Entry)), ("yesterday", []),
      ("two_days_ago", [])] : PyDict (List Entry)).map Prod.fst =
      ["today", "yesterday", "two_days_ago"] :=
  claim_C4_field_order.2
    (some (Json.obj [("data",
      Json.obj [("recentAcSubmissionList", Json.arr [])])]))
    (fun _ => none) 0 (fun _ => 0)
    [("today", []), ("yesterday", []), ("two_days_ago", [])] (by decide)

/-- C7: timezone resolution upper-cases its input and looks it up in
`TIMEZONE_MAPPING`.  Part 1: the lookup succeeds exactly when the
upper-cased input is one of `IST, CDT, PDT, PST, EST`.  Part 2: resolution
is determined by the upper-cased input alone, so it is case-insensitive and
deterministic.  Part 3: each recognised abbreviation maps to its fixed
canonical identifier.  Part 4: on any input whose upper-casing is
unmapped, `add_handle` answers with the invalid-timezone message listing
the valid choices. -/
theorem claim_C7_timezone_resolution :
    (∀ s : String,
      (dictGet TIMEZONE_MAPPING (pyUpper s)).isSome = true ↔
        (pyUpper s = "IST" ∨ pyUpper s = "CDT" ∨ pyUpper s = "PDT" ∨
          pyUpper s = "PST" ∨ pyUpper s = "EST")) ∧
    (∀ s u : String, pyUpper s = pyUpper u →
      dictGet TIMEZONE_MAPPING (pyUpper s) =
        dictGet TIMEZONE_MAPPING (pyUpper u)) ∧
    (dictGet TIMEZONE_MAPPING "IST" = some "Asia/Kolkata" ∧
      dictGet TIMEZONE_MAPPING "CDT" = some "America/Chicago" ∧
      dictGet TIMEZONE_MAPPING "PDT" = some "America/Los_Angeles" ∧
      dictGet TIMEZONE_MAPPING "PST" = some "America/Los_Angeles" ∧
      dictGet TIMEZONE_MAPPING "EST" = some "America/New_York") ∧
    (∀ (st : RegistryState) (userName handle tz : String),
      dictGet TIMEZONE_MAPPING (pyUpper tz) = none →
      (add_handle st userName handle tz).2 = invalid_timezone_message) := by
  refine ⟨?_, ?_, ⟨rfl, rfl, rfl, rfl, rfl⟩, ?_⟩
  · intro s
    rw [dictGet_isSome_iff]
    simp [TIMEZONE_MAPPING]
  · intro s u h
    rw [h]
  · intro st userName handle tz hmiss
    simp [add_handle, hmiss]

/-- C7 witness: `"ist"` resolves (its upper-casing is `IST`), and a
registration attempt with `"xyz"` is answered with the valid-choice
list. -/
theorem claim_C7_witness :
    (dictGet TIMEZONE_MAPPING (pyUpper "ist")).isSome = true ∧
    (add_handle (RegistryState.mk [] none) "u" "h" "xyz").2 =
      invalid_timezone_message := by
  constructor
  · exact (claim_C7_timezone_resolution.1 "ist").mpr (by decide)
  · exact claim_C7_timezone_resolution.2.2.2 (RegistryState.mk [] none)
      "u" "h" "xyz" (by decide)

/-- C8: registry round-trip.  After a successful registration (`add_handle`
with a timezone resolving to `canonical`) persists the map, reloading the
persisted file into a fresh process (`load_user_data` over an initially
empty map) yields a map whose entry for that user carries the same handle
and the same stored canonical timezone. -/
theorem claim_C8_registry_round_trip (st : RegistryState)
    (userName handle tz canonical : String)
    (hres : dictGet TIMEZONE_MAPPING (pyUpper tz) = some canonical) :
    dictGet
        (load_user_data (add_handle st userName handle tz).1.file [])
        userName =
      some (UserEntry.mk handle canonical) := by
  simp [add_handle, hres, save_user_data, load_user_data, dictGet_dictSet]

/-- C8 witness: registering `alice` with handle `ahandle` and timezone
`ist`, then reloading, returns the same handle with the canonical
timezone. -/
theorem claim_C8_witness :
    dictGet
        (load_user_data
          (add_handle (RegistryState.mk [] none) "alice" "ahandle"
            "ist").1.file [])
        "alice" =
      some (UserEntry.mk "ahandle" "Asia/Kolkata") :=
  claim_C8_registry_round_trip (RegistryState.mk [] none) "alice" "ahandle"
    "ist" "Asia/Kolkata" (by decide)

/-- C9: a registration attempt whose timezone does not resolve (its
upper-casing is not in `TIMEZONE_MAPPING`) leaves the whole registry state
unchanged — neither the in-memory map nor the persisted file — and the
response is the message listing the valid timezone abbreviations. -/
theorem claim_C9_invalid_timezone_rejected (st : RegistryState)
    (userName handle tz : String)
    (hmiss : dictGet TIMEZONE_MAPPING (pyUpper tz) = none) :
    add_handle st userName handle tz = (st, invalid_timezone_message) := by
  simp [add_handle, hmiss]

/-- C9 witness: registering with timezone `xyz` over a populated registry
changes nothing and yields the valid-choice message. -/
theorem claim_C9_witness :
    add_handle
        (RegistryState.mk [("bob", UserEntry.mk "b" "America/Chicago")]
          (some [("bob", UserEntry.mk "b" "America/Chicago")]))
        "alice" "a" "xyz" =
      (RegistryState.mk [("bob", UserEntry.mk "b" "America/Chicago")]
          (some [("bob", UserEntry.mk "b" "America/Chicago")]),
        invalid_timezone_message) :=
  claim_C9_invalid_timezone_rejected
    (RegistryState.mk [("bob", UserEntry.mk "b" "America/Chicago")]
      (some [("bob", UserEntry.mk "b" "America/Chicago")]))
    "alice" "a" "xyz" (by decide)

end LCBot
